import Mathlib

/-!
Shallow embedding of the authentication flow in `AuthContext.tsx`.

The component keeps two pieces of mutable state: the persisted credential
owned by `tokenManager` (here `AuthState.token`) and the React `user` state
(here `AuthState.user`).  External collaborators (tokenManager decoding,
the FCM provider, the auth API) are modelled as an `Env` record fixing
their behaviour for one operation; user-visible effects (toasts, the
`window.confirm` prompt, callback invocations, `setErrors` calls,
`console.error` logging) are recorded as an `Event` trace in the order the
source emits them.  JavaScript truthiness of optional strings
(`undefined`/`""` are falsy) is captured by `jtruthy`, and `a || b`
on strings by `jor`.
-/

/-- Identity record decoded from the stored credential (`User` in
`@/types/auth`); only its identity matters here. -/
structure User where
  id : String
deriving DecidableEq, Repr

/-- The mutable state: the credential persisted by `tokenManager` and the
React `user` state of `AuthProvider`. -/
structure AuthState where
  token : Option String
  user : Option User
deriving DecidableEq, Repr

/-- Form error mapping (`FormErrors`): field name to message, with
first-occurrence lookup semantics. -/
abbrev FieldErrors := List (String × String)

/-- Observable effects, in emission order. -/
inductive Event where
  | toastSuccess (msg : String)
  | toastError (msg : String)
  | toastInfo (msg : String)
  | confirmPrompt (msg : String)
  | callOnSuccess
  | callOnMessage (field : String) (msg : String)
  | forceLoginCall (email : String) (password : String) (hasOnSuccess : Bool)
  | setErrorsCall
  | logError
deriving DecidableEq, Repr

/-- JS truthiness of an optional string: `undefined` and `""` are falsy. -/
def jtruthy : Option String → Bool
  | none => false
  | some s => s ≠ ""

/-- JS `a || b` for an optional string with a default. -/
def jor : Option String → String → String
  | none, d => d
  | some s, d => if s = "" then d else s

/-- Shape of `data` in a resolved login / forceLogin response:
`{loggedIn, accessToken?, message?}`. -/
structure LoginData where
  loggedIn : Bool
  accessToken : Option String
  message : Option String
deriving DecidableEq, Repr

/-- Outcome of an auth API call: resolved with `data`, or rejected with
`error.response?.status` and `error.response?.data?.message` (both absent
on a pure transport failure). -/
inductive LoginResult where
  | ok (data : LoginData)
  | err (status : Option Nat) (message : Option String)
deriving DecidableEq, Repr

/-- Shape of `data` in a resolved register response:
`{success, accessToken?, message?, errors?}`. -/
structure RegisterData where
  success : Bool
  accessToken : Option String
  message : Option String
  errors : Option FieldErrors
deriving DecidableEq, Repr

/-- Outcome of `authAPI.register`: resolved with `data`, or rejected with
`error?.response?.data?.message` and `error?.response?.data?.errors`. -/
inductive RegisterResult where
  | ok (data : RegisterData)
  | err (message : Option String) (errors : Option FieldErrors)
deriving DecidableEq, Repr

/-- Transient registration input (`RegisterRequest`). -/
structure RegisterRequest where
  email : String
  password : String
  nickname : String
  profileImage : Option String
deriving DecidableEq, Repr

/-- Behaviour of the external collaborators during one operation:
`tokenManager.getUserInfo` as a function of the stored credential,
`getFcmToken`, `authAPI.registerPushToken`, and the outcome of each auth
API endpoint. -/
structure Env where
  getUserInfo : Option String → Option User
  fcm : Except Unit (Option String)
  registerPush : String → Except Unit Unit
  loginResult : LoginResult
  forceLoginResult : LoginResult
  registerResult : RegisterResult
  logoutResult : Except Unit Unit
  confirmAnswer : Bool

/-- `updateUserFromToken`: reads `tokenManager.getUserInfo()` and publishes
it via `setUser` (the `userInfo || null` coercion is the identity on
`Option User`); then tries FCM registration, catching and logging any
failure of `getFcmToken` or `registerPushToken`. -/
def updateUserFromToken (env : Env) (s : AuthState) : AuthState × List Event :=
  let userInfo := env.getUserInfo s.token
  let s1 := { s with user := userInfo }
  let evs :=
    match env.fcm with
    | Except.error _ => [Event.logError]
    | Except.ok none => []
    | Except.ok (some fcmToken) =>
        if fcmToken = "" then []
        else
          match env.registerPush fcmToken with
          | Except.ok _ => []
          | Except.error _ => [Event.logError]
  (s1, evs)

/-- Result of `login` / `forceLogin`: returned boolean, state after the
call, emitted events. -/
structure OpResult where
  ok : Bool
  state : AuthState
  events : List Event
deriving Repr

/-- `forceLogin(email, password, onSuccess?)`.  On `loggedIn && accessToken`:
`tokenManager.setToken`, `await updateUserFromToken()`, success toast,
optional callback, `true`.  Otherwise the error toast for the resolved
shape; on rejection, a 401 status selects the credential-mismatch message,
anything else the generic one; `false`. -/
def forceLogin (env : Env) (email password : String) (hasOnSuccess : Bool)
    (s : AuthState) : OpResult :=
  match env.forceLoginResult with
  | LoginResult.ok data =>
      if data.loggedIn && jtruthy data.accessToken then
        let s1 := { s with token := data.accessToken }
        let r := updateUserFromToken env s1
        { ok := true, state := r.1,
          events := r.2 ++ [Event.toastSuccess (jor data.message "강제 로그인 성공!")]
            ++ (if hasOnSuccess then [Event.callOnSuccess] else []) }
      else
        { ok := false, state := s,
          events := [Event.toastError (jor data.message "강제 로그인 실패")] }
  | LoginResult.err status message =>
      if status = some 401 then
        { ok := false, state := s,
          events := [Event.toastError (jor message "이메일 또는 비밀번호 오류")] }
      else
        { ok := false, state := s,
          events := [Event.toastError (jor message "강제 로그인 중 오류 발생")] }

/-- `login(email, password, onSuccess?)`.  Success path mirrors
`forceLogin`.  On rejection with status 409: `window.confirm`; if
confirmed, delegate to `forceLogin` with the same arguments (the
delegation itself is recorded as `Event.forceLoginCall`); if declined,
fall through to `return false` with no toast.  Any other rejection shows
the error toast. -/
def login (env : Env) (email password : String) (hasOnSuccess : Bool)
    (s : AuthState) : OpResult :=
  match env.loginResult with
  | LoginResult.ok data =>
      if data.loggedIn && jtruthy data.accessToken then
        let s1 := { s with token := data.accessToken }
        let r := updateUserFromToken env s1
        { ok := true, state := r.1,
          events := r.2 ++ [Event.toastSuccess (jor data.message "로그인 성공!")]
            ++ (if hasOnSuccess then [Event.callOnSuccess] else []) }
      else
        { ok := false, state := s,
          events := [Event.toastError (jor data.message "로그인에 실패했습니다.")] }
  | LoginResult.err status msg =>
      if status = some 409 then
        let promptEv := Event.confirmPrompt
          (jor msg "다른 브라우저에서 로그인됨. 강제 로그인하시겠습니까?")
        if env.confirmAnswer then
          let r := forceLogin env email password hasOnSuccess s
          { ok := r.ok, state := r.state,
            events := [promptEv, Event.forceLoginCall email password hasOnSuccess]
              ++ r.events }
        else
          { ok := false, state := s, events := [promptEv] }
      else
        { ok := false, state := s,
          events := [Event.toastError (jor msg "로그인 중 오류 발생")] }

/-- `{...prev, ...errs}`: keys of `errs` override `prev` under
first-occurrence `List.lookup`. -/
def spreadErrors (prev errs : FieldErrors) : FieldErrors :=
  errs ++ prev

/-- Result of `register`: returned boolean, auth state, the caller's form
error state after any `setErrors` call, emitted events. -/
structure RegisterOutcome where
  ok : Bool
  state : AuthState
  errorsState : FieldErrors
  events : List Event
deriving Repr

/-- `register(form, onMessage?, setErrors?)`.  The multipart payload built
from `form` only feeds the API call whose outcome `env.registerResult`
fixes.  On `data.success`: store and refresh only when an access token is
truthy, success toast, `true`.  On declared failure: merge `data.errors`
into the caller state when present and `setErrors` is supplied; route
`data.message` to `onMessage` tagged `nicknameError` when no errors object
is present and the message is truthy; error toast; `false`.  The catch
branch applies the same routing to `error?.response?.data`. -/
def register (env : Env) (form : RegisterRequest)
    (hasOnMessage hasSetErrors : Bool) (prev : FieldErrors)
    (s : AuthState) : RegisterOutcome :=
  match env.registerResult with
  | RegisterResult.ok data =>
      if data.success then
        let r :=
          if jtruthy data.accessToken then
            updateUserFromToken env { s with token := data.accessToken }
          else (s, [])
        { ok := true, state := r.1, errorsState := prev,
          events := r.2 ++ [Event.toastSuccess (jor data.message "회원가입 성공!")] }
      else
        let e1 := if data.errors.isSome && hasSetErrors then [Event.setErrorsCall] else []
        let errState :=
          match data.errors with
          | some errs => if hasSetErrors then spreadErrors prev errs else prev
          | none => prev
        let e2 :=
          if data.errors.isNone && jtruthy data.message && hasOnMessage then
            [Event.callOnMessage "nicknameError" (jor data.message "")]
          else []
        { ok := false, state := s, errorsState := errState,
          events := e1 ++ e2 ++ [Event.toastError (jor data.message "회원가입 실패")] }
  | RegisterResult.err message errs? =>
      let e1 := if errs?.isSome && hasSetErrors then [Event.setErrorsCall] else []
      let errState :=
        match errs? with
        | some errs => if hasSetErrors then spreadErrors prev errs else prev
        | none => prev
      let e2 :=
        if errs?.isNone && jtruthy message && hasOnMessage then
          [Event.callOnMessage "nicknameError" (jor message "")]
        else []
      { ok := false, state := s, errorsState := errState,
        events := e1 ++ e2 ++ [Event.toastError (jor message "회원가입 중 오류 발생")] }

/-- `logout()`: best-effort backend call whose rejection is only logged;
the `finally` block always runs `tokenManager.clearTokens()`,
`setUser(null)` and the info toast. -/
def logout (env : Env) (s : AuthState) : AuthState × List Event :=
  let e1 :=
    match env.logoutResult with
    | Except.ok _ => []
    | Except.error _ => [Event.logError]
  ({ s with token := none, user := none },
   e1 ++ [Event.toastInfo "로그아웃 되었습니다."])

/-- `loginWithSocialMedia(provider)`: deterministic redirect target. -/
def loginWithSocialMedia (provider : String) : String :=
  "/oauth2/authorization/" ++ provider

/-- The failure payload `(message, errors)` that the error-routing code of
`register` operates on: `data` of a resolved response with
`success: false`, or `error?.response?.data` of a rejection. -/
def failurePayload : RegisterResult → Option (Option String × Option FieldErrors)
  | RegisterResult.ok d => if d.success then none else some (d.message, d.errors)
  | RegisterResult.err m e => some (m, e)

def isErrorToast : Event → Bool
  | Event.toastError _ => true
  | _ => false

/-- Number of `toast.error` notifications in a trace. -/
def countErrorToasts (evs : List Event) : Nat :=
  evs.countP isErrorToast

def isForceLoginCall : Event → Bool
  | Event.forceLoginCall _ _ _ => true
  | _ => false

/-- Number of delegations to `forceLogin` in a trace. -/
def countForceLoginCalls (evs : List Event) : Nat :=
  evs.countP isForceLoginCall

def isOnMessageCall : Event → Bool
  | Event.callOnMessage _ _ => true
  | _ => false

/-- Number of invocations of the caller's message callback in a trace. -/
def countOnMessageCalls (evs : List Event) : Nat :=
  evs.countP isOnMessageCall

def isLogEvent : Event → Bool
  | Event.logError => true
  | _ => false

/-! ### Helper lemmas -/

theorem updateUserFromToken_events_log (env : Env) (s : AuthState) :
    (updateUserFromToken env s).2.all isLogEvent = true := by
  unfold updateUserFromToken
  cases env.fcm with
  | error e => simp [isLogEvent]
  | ok o =>
    cases o with
    | none => simp
    | some t =>
      by_cases ht : t = ""
      · simp [ht]
      · simp only [ht, if_false]
        cases env.registerPush t <;> simp [isLogEvent]

theorem countP_zero_of_all_log (evs : List Event) (p : Event → Bool)
    (hp : p Event.logError = false) (h : evs.all isLogEvent = true) :
    evs.countP p = 0 := by
  rw [List.countP_eq_zero]
  intro a ha
  have hl := (List.all_eq_true.mp h) a ha
  cases a <;> simp_all [isLogEvent]

/-! ### Claims -/

/-- C5: `updateUserFromToken` never raises: the resulting state publishes
exactly the user decoded from the stored credential (and keeps the
credential itself), regardless of how the FCM token fetch or the
push-token registration behave; the only events the refresh can emit by
itself are error-log entries, never a toast or a session change. -/
theorem updateUserFromToken_refresh (env : Env) (s : AuthState)
    (fcmOutcome : Except Unit (Option String))
    (pushOutcome : String → Except Unit Unit) :
    (updateUserFromToken
        { env with fcm := fcmOutcome, registerPush := pushOutcome } s).1
      = { s with user := env.getUserInfo s.token } ∧
    (updateUserFromToken env s).2.all isLogEvent = true :=
  ⟨rfl, updateUserFromToken_events_log env s⟩

/-- C4: `logout` always clears the stored credential and sets the session
user to absent, and always shows the info toast; a rejected backend logout
only adds a log entry in front and is never surfaced as a toast. -/
theorem logout_always_clears (env : Env) (s : AuthState) :
    (logout env s).1 = { s with token := none, user := none } ∧
    (logout env s).2 =
      (match env.logoutResult with
       | Except.ok _ => []
       | Except.error _ => [Event.logError]) ++ [Event.toastInfo "로그아웃 되었습니다."] := by
  cases h : env.logoutResult <;> simp [logout, h]

/-- C1: a `login` whose backend response resolves with `loggedIn: true`
and a (non-empty) access token stores that token, refreshes the session to
the user decoded from it, shows the success toast, invokes the optional
success callback, and returns `true`. -/
theorem login_success_path (env : Env) (email password : String)
    (hasOnSuccess : Bool) (s : AuthState) (d : LoginData) (t : String)
    (hres : env.loginResult = LoginResult.ok d)
    (hl : d.loggedIn = true) (ht : d.accessToken = some t) (hne : t ≠ "") :
    login env email password hasOnSuccess s =
      { ok := true,
        state := { token := some t, user := env.getUserInfo (some t) },
        events := (updateUserFromToken env { s with token := some t }).2
          ++ [Event.toastSuccess (jor d.message "로그인 성공!")]
          ++ (if hasOnSuccess then [Event.callOnSuccess] else []) } := by
  simp [login, hres, hl, ht, jtruthy, hne, updateUserFromToken]

/-- Environment for the C1 witness: backend resolves the login with
`{loggedIn: true, accessToken: "T"}`; decoding yields the user `"T"`. -/
def envC1 : Env :=
  { getUserInfo := fun tok => tok.map User.mk,
    fcm := Except.ok none,
    registerPush := fun _ => Except.ok (),
    loginResult := LoginResult.ok
      { loggedIn := true, accessToken := some "T", message := none },
    forceLoginResult := LoginResult.err (some 401) none,
    registerResult := RegisterResult.err none none,
    logoutResult := Except.ok (),
    confirmAnswer := false }

/-- Witness for C1 at the spec example `login("a@b.com","pw")` against
`{loggedIn:true, accessToken:"T"}`. -/
theorem login_success_path_witness :
    login envC1 "a@b.com" "pw" true { token := none, user := none } =
      { ok := true,
        state := { token := some "T", user := some (User.mk "T") },
        events := [Event.toastSuccess "로그인 성공!", Event.callOnSuccess] } := by
  have h := login_success_path envC1 "a@b.com" "pw" true
    { token := none, user := none }
    { loggedIn := true, accessToken := some "T", message := none } "T"
    rfl rfl rfl (by decide)
  rw [h]
  rfl

/-- C8: `forceLogin` on a rejected call returns `false` and leaves the
state unchanged, showing the credential-mismatch toast for a 401 status
and the generic forced-login error toast for any other status; its success
path is the same as login's: store the token, refresh the session, show
the success toast, invoke the optional callback, return `true`. -/
theorem forceLogin_paths (env : Env) (email password : String)
    (hasOnSuccess : Bool) (s : AuthState) :
    (∀ status message, env.forceLoginResult = LoginResult.err status message →
      forceLogin env email password hasOnSuccess s =
        { ok := false, state := s,
          events := [Event.toastError
            (if status = some 401 then jor message "이메일 또는 비밀번호 오류"
             else jor message "강제 로그인 중 오류 발생")] }) ∧
    (∀ d t, env.forceLoginResult = LoginResult.ok d → d.loggedIn = true →
      d.accessToken = some t → t ≠ "" →
      forceLogin env email password hasOnSuccess s =
        { ok := true,
          state := { token := some t, user := env.getUserInfo (some t) },
          events := (updateUserFromToken env { s with token := some t }).2
            ++ [Event.toastSuccess (jor d.message "강제 로그인 성공!")]
            ++ (if hasOnSuccess then [Event.callOnSuccess] else []) }) := by
  constructor
  · intro status message h
    by_cases h4 : status = some 401 <;> simp [forceLogin, h, h4]
  · intro d t h hl ht hne
    simp [forceLogin, h, hl, ht, jtruthy, hne, updateUserFromToken]

/-- Environment for the C8 witness, failure half: forceLogin rejected
with a 401 and no backend message. -/
def envC8err : Env :=
  { envC1 with forceLoginResult := LoginResult.err (some 401) none }

/-- Environment for the C8 witness, success half: forceLogin resolves
with `{loggedIn: true, accessToken: "F"}`. -/
def envC8ok : Env :=
  { envC1 with forceLoginResult :=
      LoginResult.ok ⟨true, some "F", none⟩ }

/-- Witness for C8: both halves evaluated at concrete environments. -/
theorem forceLogin_paths_witness :
    forceLogin envC8err "a@b.com" "pw" false { token := none, user := none } =
      { ok := false, state := { token := none, user := none },
        events := [Event.toastError "이메일 또는 비밀번호 오류"] } ∧
    forceLogin envC8ok "a@b.com" "pw" true { token := none, user := none } =
      { ok := true,
        state := { token := some "F", user := some (User.mk "F") },
        events := [Event.toastSuccess "강제 로그인 성공!", Event.callOnSuccess] } := by
  constructor
  · have h := (forceLogin_paths envC8err "a@b.com" "pw" false
      { token := none, user := none }).1 (some 401) none (by rfl)
    rw [h]
    rfl
  · have h := (forceLogin_paths envC8ok "a@b.com" "pw" true
      { token := none, user := none }).2 ⟨true, some "F", none⟩ "F"
      (by rfl) rfl rfl (by decide)
    rw [h]
    rfl

/-- Environment for C2: login rejected with a 409 conflict and the user
declines the confirmation prompt. -/
def envC2 : Env :=
  { envC1 with loginResult := LoginResult.err (some 409) none,
               confirmAnswer := false }

/-- Counterexample for C2: with a 409-rejected login and a declined
confirmation, the code shows zero error notifications (it falls through
to `return false` without any `toast.error`), not exactly one as the
claim states. -/
theorem login_conflict_declined_counterexample :
    envC2.loginResult = LoginResult.err (some 409) none ∧
    envC2.confirmAnswer = false ∧
    ¬ (countErrorToasts (login envC2 "a@b.com" "pw" false
        { token := none, user := none }).events = 1) := by
  refine ⟨rfl, rfl, ?_⟩
  decide

/-- C2 (amended): a `login` rejected with a 409 conflict whose
confirmation prompt is declined leaves the session and the stored
credential unchanged, makes no `forceLogin` call, returns `false`, and
shows no error notification at all — the only user-visible effect is the
confirmation prompt itself. -/
theorem login_conflict_declined (env : Env) (email password : String)
    (hasOnSuccess : Bool) (s : AuthState) (msg : Option String)
    (hres : env.loginResult = LoginResult.err (some 409) msg)
    (hconf : env.confirmAnswer = false) :
    login env email password hasOnSuccess s =
      { ok := false, state := s,
        events := [Event.confirmPrompt
          (jor msg "다른 브라우저에서 로그인됨. 강제 로그인하시겠습니까?")] } ∧
    countErrorToasts (login env email password hasOnSuccess s).events = 0 ∧
    countForceLoginCalls (login env email password hasOnSuccess s).events = 0 := by
  have h : login env email password hasOnSuccess s =
      { ok := false, state := s,
        events := [Event.confirmPrompt
          (jor msg "다른 브라우저에서 로그인됨. 강제 로그인하시겠습니까?")] } := by
    simp [login, hres, hconf]
  refine ⟨h, ?_, ?_⟩ <;>
    simp [h, countErrorToasts, countForceLoginCalls, isErrorToast, isForceLoginCall]

/-- Witness for C2 (amended) at a concrete declined 409 conflict. -/
theorem login_conflict_declined_witness :
    login envC2 "a@b.com" "pw" false { token := none, user := none } =
      { ok := false, state := { token := none, user := none },
        events := [Event.confirmPrompt
          "다른 브라우저에서 로그인됨. 강제 로그인하시겠습니까?"] } ∧
    countErrorToasts (login envC2 "a@b.com" "pw" false
      { token := none, user := none }).events = 0 := by
  have h := login_conflict_declined envC2 "a@b.com" "pw" false
    { token := none, user := none } none rfl rfl
  exact ⟨h.1, h.2.1⟩

theorem forceLogin_no_forceLoginCall (env : Env) (email password : String)
    (hasOnSuccess : Bool) (s : AuthState) :
    countForceLoginCalls (forceLogin env email password hasOnSuccess s).events = 0 := by
  unfold forceLogin
  cases hr : env.forceLoginResult with
  | ok d =>
    by_cases hc : (d.loggedIn && jtruthy d.accessToken) = true
    · simp only [hc, if_true, countForceLoginCalls, List.countP_append]
      rw [countP_zero_of_all_log _ _ rfl (updateUserFromToken_events_log env _)]
      cases hasOnSuccess <;> simp [isForceLoginCall]
    · simp only [hc, if_false]
      simp [countForceLoginCalls, isForceLoginCall]
  | err st m =>
    by_cases h4 : st = some 401 <;>
      simp [h4, countForceLoginCalls, isForceLoginCall]

/-- C3: a `login` rejected with a 409 conflict whose confirmation prompt
is accepted delegates exactly once to `forceLogin` with the identical
email, password and optional callback, and returns that delegated call's
boolean and state. -/
theorem login_conflict_accepted (env : Env) (email password : String)
    (hasOnSuccess : Bool) (s : AuthState) (msg : Option String)
    (hres : env.loginResult = LoginResult.err (some 409) msg)
    (hconf : env.confirmAnswer = true) :
    (login env email password hasOnSuccess s).ok
        = (forceLogin env email password hasOnSuccess s).ok ∧
    (login env email password hasOnSuccess s).state
        = (forceLogin env email password hasOnSuccess s).state ∧
    countForceLoginCalls (login env email password hasOnSuccess s).events = 1 ∧
    Event.forceLoginCall email password hasOnSuccess
        ∈ (login env email password hasOnSuccess s).events := by
  have hl : login env email password hasOnSuccess s =
      { ok := (forceLogin env email password hasOnSuccess s).ok,
        state := (forceLogin env email password hasOnSuccess s).state,
        events := [Event.confirmPrompt
            (jor msg "다른 브라우저에서 로그인됨. 강제 로그인하시겠습니까?"),
          Event.forceLoginCall email password hasOnSuccess]
          ++ (forceLogin env email password hasOnSuccess s).events } := by
    simp [login, hres, hconf]
  refine ⟨by rw [hl], by rw [hl], ?_, ?_⟩
  · rw [hl]
    simp only [countForceLoginCalls, List.countP_append, List.countP_cons,
      List.countP_nil]
    have h0 := forceLogin_no_forceLoginCall env email password hasOnSuccess s
    simp only [countForceLoginCalls] at h0
    simp [h0, isForceLoginCall]
  · rw [hl]
    simp

/-- Environment for the C3 witness: login rejected with a 409 conflict,
confirmation accepted, forceLogin then rejected with a 401. -/
def envC3 : Env :=
  { envC1 with loginResult := LoginResult.err (some 409) (some "dup"),
               confirmAnswer := true }

/-- Witness for C3 at a concrete accepted 409 conflict. -/
theorem login_conflict_accepted_witness :
    (login envC3 "a@b.com" "pw" true { token := none, user := none }).ok
        = (forceLogin envC3 "a@b.com" "pw" true { token := none, user := none }).ok ∧
    countForceLoginCalls (login envC3 "a@b.com" "pw" true
        { token := none, user := none }).events = 1 ∧
    Event.forceLoginCall "a@b.com" "pw" true
        ∈ (login envC3 "a@b.com" "pw" true { token := none, user := none }).events := by
  have h := login_conflict_accepted envC3 "a@b.com" "pw" true
    { token := none, user := none } (some "dup") (by rfl) (by rfl)
  exact ⟨h.1, h.2.2.1, h.2.2.2⟩

theorem forceLogin_false_frame (env : Env) (email password : String)
    (hasOnSuccess : Bool) (s : AuthState)
    (h : (forceLogin env email password hasOnSuccess s).ok = false) :
    (forceLogin env email password hasOnSuccess s).state = s := by
  unfold forceLogin at h ⊢
  cases hr : env.forceLoginResult with
  | ok d =>
    rw [hr] at h
    by_cases hc : (d.loggedIn && jtruthy d.accessToken) = true
    · simp [hc] at h
    · simp [hc]
  | err st m =>
    rw [hr] at h
    by_cases h4 : st = some 401 <;> simp [h4]

theorem login_false_frame (env : Env) (email password : String)
    (hasOnSuccess : Bool) (s : AuthState)
    (h : (login env email password hasOnSuccess s).ok = false) :
    (login env email password hasOnSuccess s).state = s := by
  unfold login at h ⊢
  cases hr : env.loginResult with
  | ok d =>
    rw [hr] at h
    by_cases hc : (d.loggedIn && jtruthy d.accessToken) = true
    · simp [hc] at h
    · simp [hc]
  | err st m =>
    rw [hr] at h
    by_cases h9 : st = some 409
    · simp only [h9, if_true] at h ⊢
      by_cases hcf : env.confirmAnswer = true
      · simp only [hcf, if_true] at h ⊢
        exact forceLogin_false_frame env email password hasOnSuccess s h
      · simp only [Bool.not_eq_true] at hcf
        simp [hcf]
    · simp [h9]

theorem register_false_frame (env : Env) (form : RegisterRequest)
    (hasOnMessage hasSetErrors : Bool) (prev : FieldErrors) (s : AuthState)
    (h : (register env form hasOnMessage hasSetErrors prev s).ok = false) :
    (register env form hasOnMessage hasSetErrors prev s).state = s := by
  unfold register at h ⊢
  cases hr : env.registerResult with
  | ok d =>
    rw [hr] at h
    by_cases hs : d.success = true
    · simp [hs] at h
    · simp only [Bool.not_eq_true] at hs
      simp [hs]
  | err m e => rfl

/-- C7: `login`, `forceLogin` and `register` each return a success/failure
boolean, and whenever the returned boolean is `false` the stored
credential and the session user are exactly what they were before the
call — in particular a `loggedIn: false` response never regresses an
established session. -/
theorem coordinator_false_frame (env : Env) (email password : String)
    (hasOnSuccess : Bool) (form : RegisterRequest)
    (hasOnMessage hasSetErrors : Bool) (prev : FieldErrors) (s : AuthState) :
    ((login env email password hasOnSuccess s).ok = false →
      (login env email password hasOnSuccess s).state = s) ∧
    ((forceLogin env email password hasOnSuccess s).ok = false →
      (forceLogin env email password hasOnSuccess s).state = s) ∧
    ((register env form hasOnMessage hasSetErrors prev s).ok = false →
      (register env form hasOnMessage hasSetErrors prev s).state = s) :=
  ⟨login_false_frame env email password hasOnSuccess s,
   forceLogin_false_frame env email password hasOnSuccess s,
   register_false_frame env form hasOnMessage hasSetErrors prev s⟩

/-- Environment for the C7 witness: all three operations fail — login
resolves with `loggedIn: false`, forceLogin is rejected with a 401, and
register is rejected — against an established session. -/
def envC7 : Env :=
  { envC1 with loginResult := LoginResult.ok ⟨false, none, none⟩ }

/-- Witness for C7: each failing operation leaves an established session
(token `"T"`, user `"T"`) untouched. -/
theorem coordinator_false_frame_witness :
    (login envC7 "a@b.com" "pw" false
        { token := some "T", user := some (User.mk "T") }).state
      = { token := some "T", user := some (User.mk "T") } ∧
    (forceLogin envC7 "a@b.com" "pw" false
        { token := some "T", user := some (User.mk "T") }).state
      = { token := some "T", user := some (User.mk "T") } ∧
    (register envC7 ⟨"a@b.com", "pw", "nick", none⟩ true true []
        { token := some "T", user := some (User.mk "T") }).state
      = { token := some "T", user := some (User.mk "T") } := by
  have h := coordinator_false_frame envC7 "a@b.com" "pw" false
    ⟨"a@b.com", "pw", "nick", none⟩ true true []
    { token := some "T", user := some (User.mk "T") }
  exact ⟨h.1 (by rfl), h.2.1 (by rfl), h.2.2 (by rfl)⟩

theorem lookup_append_of_none (errs prev : FieldErrors) (k : String)
    (h : errs.lookup k = none) :
    (errs ++ prev).lookup k = prev.lookup k := by
  induction errs with
  | nil => rfl
  | cons a t ih =>
    cases a with
    | mk a1 a2 =>
      by_cases hk : (k == a1) = true
      · simp [List.lookup, hk] at h
      · simp only [Bool.not_eq_true] at hk
        rw [List.cons_append]
        simp only [List.lookup, hk] at h ⊢
        exact ih h

/-- C6: when `register` fails (a `success: false` response or a rejected
call) with both the message callback and the error setter supplied, a
payload carrying field errors merges them into the caller's error state
and never invokes the message callback, while a payload carrying a
(non-empty) message and no field errors invokes the message callback
exactly once, tagged as a `nicknameError`; both the resolved-failure and
the catch branch route through `failurePayload` identically. -/
theorem register_failure_routing (env : Env) (form : RegisterRequest)
    (prev : FieldErrors) (s : AuthState) (m : Option String)
    (e : Option FieldErrors)
    (hp : failurePayload env.registerResult = some (m, e)) :
    (∀ errs, e = some errs →
      (register env form true true prev s).errorsState = spreadErrors prev errs ∧
      countOnMessageCalls (register env form true true prev s).events = 0) ∧
    (∀ msgStr, e = none → m = some msgStr → msgStr ≠ "" →
      countOnMessageCalls (register env form true true prev s).events = 1 ∧
      Event.callOnMessage "nicknameError" msgStr
        ∈ (register env form true true prev s).events) := by
  cases hr : env.registerResult with
  | ok d =>
    rw [hr] at hp
    by_cases hs : d.success = true
    · simp [failurePayload, hs] at hp
    · simp only [Bool.not_eq_true] at hs
      simp [failurePayload, hs] at hp
      obtain ⟨hm, he⟩ := hp
      subst hm
      subst he
      constructor
      · intro errs he2
        constructor
        · simp [register, hr, hs, he2]
        · simp [register, hr, hs, he2, countOnMessageCalls, isOnMessageCall]
      · intro msgStr he2 hm2 hne
        constructor
        · simp [register, hr, hs, he2, hm2, jtruthy, hne, countOnMessageCalls,
            isOnMessageCall]
        · simp [register, hr, hs, he2, hm2, jtruthy, hne, jor]
  | err m2 e2 =>
    rw [hr] at hp
    simp [failurePayload] at hp
    obtain ⟨hm, he⟩ := hp
    subst hm
    subst he
    constructor
    · intro errs he2
      constructor
      · simp [register, hr, he2]
      · simp [register, hr, he2, countOnMessageCalls, isOnMessageCall]
    · intro msgStr he2 hm2 hne
      constructor
      · simp [register, hr, he2, hm2, jtruthy, hne, countOnMessageCalls,
          isOnMessageCall]
      · simp [register, hr, he2, hm2, jtruthy, hne, jor]

/-- Environment for the C6 witness, field-error half: register resolves
with `success: false` and an `errors` payload. -/
def envC6errs : Env :=
  { envC1 with registerResult :=
      RegisterResult.ok ⟨false, none, some "fail", some [("emailError", "dup")]⟩ }

/-- Environment for the C6 witness, message half: register is rejected
with a message and no `errors` payload. -/
def envC6msg : Env :=
  { envC1 with registerResult := RegisterResult.err (some "nick taken") none }

/-- Witness for C6: both routing halves at concrete payloads. -/
theorem register_failure_routing_witness :
    (register envC6errs ⟨"a@b.com", "pw", "nick", none⟩ true true
        [("passwordError", "old")] { token := none, user := none }).errorsState
      = [("emailError", "dup"), ("passwordError", "old")] ∧
    countOnMessageCalls (register envC6errs ⟨"a@b.com", "pw", "nick", none⟩
        true true [("passwordError", "old")]
        { token := none, user := none }).events = 0 ∧
    countOnMessageCalls (register envC6msg ⟨"a@b.com", "pw", "nick", none⟩
        true true [] { token := none, user := none }).events = 1 ∧
    Event.callOnMessage "nicknameError" "nick taken"
      ∈ (register envC6msg ⟨"a@b.com", "pw", "nick", none⟩ true true []
          { token := none, user := none }).events := by
  have h1 := (register_failure_routing envC6errs ⟨"a@b.com", "pw", "nick", none⟩
    [("passwordError", "old")] { token := none, user := none }
    (some "fail") (some [("emailError", "dup")]) (by rfl)).1
    [("emailError", "dup")] rfl
  have h2 := (register_failure_routing envC6msg ⟨"a@b.com", "pw", "nick", none⟩
    [] { token := none, user := none } (some "nick taken") none (by rfl)).2
    "nick taken" rfl rfl (by decide)
  exact ⟨h1.1, h1.2, h2.1, h2.2⟩

/-- C9: a `register` whose response reports `success: true` without an
access token still shows the success toast and returns `true`, while
leaving the stored credential, the session user and the caller's error
state exactly as they were (no token stored, no session refresh run). -/
theorem register_success_no_token (env : Env) (form : RegisterRequest)
    (hasOnMessage hasSetErrors : Bool) (prev : FieldErrors) (s : AuthState)
    (d : RegisterData) (hres : env.registerResult = RegisterResult.ok d)
    (hs : d.success = true) (ht : d.accessToken = none) :
    register env form hasOnMessage hasSetErrors prev s =
      { ok := true, state := s, errorsState := prev,
        events := [Event.toastSuccess (jor d.message "회원가입 성공!")] } := by
  simp [register, hres, hs, ht, jtruthy]

/-- Environment for the C9 witness: register resolves `success: true`
with no access token. -/
def envC9 : Env :=
  { envC1 with registerResult := RegisterResult.ok ⟨true, none, none, none⟩ }

/-- Witness for C9 against an established session. -/
theorem register_success_no_token_witness :
    register envC9 ⟨"a@b.com", "pw", "nick", none⟩ true true []
        { token := some "T", user := some (User.mk "T") } =
      { ok := true, state := { token := some "T", user := some (User.mk "T") },
        errorsState := [],
        events := [Event.toastSuccess "회원가입 성공!"] } := by
  have h := register_success_no_token envC9 ⟨"a@b.com", "pw", "nick", none⟩
    true true [] { token := some "T", user := some (User.mk "T") }
    ⟨true, none, none, none⟩ (by rfl) rfl rfl
  rw [h]
  rfl

/-- C10: whenever `register` merges a backend `errors` payload into the
caller's error state, the new state is the object spread of the previous
state overridden by the payload's keys, so every pre-existing entry whose
field is not named in the payload is preserved. -/
theorem register_merge_preserves (env : Env) (form : RegisterRequest)
    (hasOnMessage : Bool) (prev : FieldErrors) (s : AuthState)
    (m : Option String) (errs : FieldErrors)
    (hp : failurePayload env.registerResult = some (m, some errs)) :
    (register env form hasOnMessage true prev s).errorsState
        = spreadErrors prev errs ∧
    ∀ k, errs.lookup k = none →
      (register env form hasOnMessage true prev s).errorsState.lookup k
        = prev.lookup k := by
  have hmain : (register env form hasOnMessage true prev s).errorsState
      = spreadErrors prev errs := by
    cases hr : env.registerResult with
    | ok d =>
      rw [hr] at hp
      by_cases hs : d.success = true
      · simp [failurePayload, hs] at hp
      · simp only [Bool.not_eq_true] at hs
        simp [failurePayload, hs] at hp
        simp [register, hr, hs, hp.2]
    | err m2 e2 =>
      rw [hr] at hp
      simp [failurePayload] at hp
      simp [register, hr, hp.2]
  refine ⟨hmain, ?_⟩
  intro k hk
  rw [hmain]
  exact lookup_append_of_none errs prev k hk

/-- Environment for the C10 witness: register rejected with a field-error
payload naming only `emailError`. -/
def envC10 : Env :=
  { envC1 with registerResult :=
      RegisterResult.err none (some [("emailError", "taken")]) }

/-- Witness for C10: a pre-existing `nicknameError` entry survives a merge
whose payload names only `emailError`. -/
theorem register_merge_preserves_witness :
    (register envC10 ⟨"a@b.com", "pw", "nick", none⟩ false true
        [("nicknameError", "old")] { token := none, user := none }).errorsState
      = [("emailError", "taken"), ("nicknameError", "old")] ∧
    (register envC10 ⟨"a@b.com", "pw", "nick", none⟩ false true
        [("nicknameError", "old")]
        { token := none, user := none }).errorsState.lookup "nicknameError"
      = some "old" := by
  have h := register_merge_preserves envC10 ⟨"a@b.com", "pw", "nick", none⟩
    false [("nicknameError", "old")] { token := none, user := none }
    none [("emailError", "taken")] (by rfl)
  refine ⟨h.1, ?_⟩
  have h2 := h.2 "nicknameError" (by decide)
  rw [h2]
  rfl
